import Mathlib

/-!
Verification of the claude-jail core (session registry, message codec, query
orchestration, connection loop, config loader) against its specification.

The Python sources are shallowly embedded: JSON payloads become an inductive
value type, the session registry becomes an association list from channel id
to session record, the query engine is a black box supplying an ordered list
of events followed by an optional raised failure, and wall-clock time is an
explicit rational parameter.  Fallible Python code is modelled with Except.
-/

set_option autoImplicit false

/-- JSON values as produced by json.loads.  Numbers are modelled as integers,
which is enough for every payload the claims mention. -/
inductive JsonVal where
  | null
  | bool (b : Bool)
  | num (n : Int)
  | str (s : String)
  | arr (elems : List JsonVal)
  | obj (fields : List (String × JsonVal))

/-- First-match lookup in an association list, the model of indexing a Python
dict (whose keys are unique). -/
def alookup {α : Type} : List (String × α) → String → Option α
  | [], _ => none
  | (k, v) :: rest, key => if k = key then some v else alookup rest key

/-- Replace the value stored under a key, the model of mutating an entry of a
Python dict in place.  A missing key leaves the list unchanged. -/
def aupdate {α : Type} : List (String × α) → String → α → List (String × α)
  | [], _, _ => []
  | (k, v) :: rest, key, nv => if k = key then (key, nv) :: rest else (k, v) :: aupdate rest key nv

/-- Remove the entry stored under a key, the model of dict.pop. -/
def aremove {α : Type} : List (String × α) → String → List (String × α)
  | [], _ => []
  | (k, v) :: rest, key => if k = key then rest else (k, v) :: aremove rest key

-- ---------------------------------------------------------------------------
-- protocol.py : message types and parse_inbound
-- ---------------------------------------------------------------------------

/-- protocol.QueryMessage (the type discriminator is carried by the
InboundMessage constructor). -/
structure QueryMessage where
  query_id : String
  channel_id : String
  workspace : String
  prompt : String
  session_id : Option String
deriving DecidableEq

/-- protocol.CloseSessionMessage. -/
structure CloseSessionMessage where
  channel_id : String
deriving DecidableEq

/-- protocol.InboundMessage, the tagged union of the two inbound messages. -/
inductive InboundMessage where
  | query (m : QueryMessage)
  | close_session (m : CloseSessionMessage)
deriving DecidableEq

/-- protocol.TextMessage. -/
structure TextMessage where
  query_id : String
  channel_id : String
  content : String

/-- protocol.ToolUseMessage; input is an arbitrary JSON object. -/
structure ToolUseMessage where
  query_id : String
  channel_id : String
  tool : String
  input : List (String × JsonVal)

/-- protocol.DoneMessage. -/
structure DoneMessage where
  query_id : String
  channel_id : String
  session_id : String

/-- protocol.ErrorMessage. -/
structure ErrorMessage where
  query_id : String
  channel_id : String
  message : String

/-- protocol.OutboundMessage, the tagged union of the four outbound messages. -/
inductive OutboundMessage where
  | text (m : TextMessage)
  | tool_use (m : ToolUseMessage)
  | done (m : DoneMessage)
  | error (m : ErrorMessage)

/-- The two failure modes of parse_inbound: the ValueError raised for an
unrecognized type tag, and the pydantic ValidationError (a ValueError
subclass) raised by model_validate. -/
inductive PError where
  | unknownType
  | validation
deriving DecidableEq

/-- Pydantic validation of a required str field: present strings are accepted,
anything else (absent, null, numbers, booleans, arrays, objects) is rejected;
pydantic v2 performs no cross-type coercion into str. -/
def vStr : Option JsonVal → Except PError String
  | some (JsonVal.str s) => Except.ok s
  | _ => Except.error PError.validation

/-- Pydantic validation of the optional field with annotation str or None and
default None: an absent field yields the default, null yields None, a string
yields itself, anything else is rejected. -/
def vOptStr : Option JsonVal → Except PError (Option String)
  | none => Except.ok none
  | some JsonVal.null => Except.ok none
  | some (JsonVal.str s) => Except.ok (some s)
  | _ => Except.error PError.validation

/-- Pydantic validation of the Literal-typed discriminator field with default
equal to the tag: absent falls back to the default, the exact tag string is
accepted, anything else is rejected. -/
def vLit (tag : String) : Option JsonVal → Except PError Unit
  | none => Except.ok ()
  | some (JsonVal.str s) => if s = tag then Except.ok () else Except.error PError.validation
  | _ => Except.error PError.validation

/-- QueryMessage.model_validate as a function of the six field lookups it
reads (pydantic ignores all other keys of the payload). -/
def queryValidateCore (t q c w p s : Option JsonVal) : Except PError QueryMessage :=
  match vLit "query" t, vStr q, vStr c, vStr w, vStr p, vOptStr s with
  | Except.ok _, Except.ok qv, Except.ok cv, Except.ok wv, Except.ok pv, Except.ok sv =>
      Except.ok ⟨qv, cv, wv, pv, sv⟩
  | _, _, _, _, _, _ => Except.error PError.validation

/-- QueryMessage.model_validate on a payload. -/
def QueryMessage.model_validate (data : List (String × JsonVal)) : Except PError QueryMessage :=
  queryValidateCore (alookup data "type") (alookup data "query_id") (alookup data "channel_id")
    (alookup data "workspace") (alookup data "prompt") (alookup data "session_id")

/-- CloseSessionMessage.model_validate as a function of the two field lookups
it reads. -/
def closeValidateCore (t c : Option JsonVal) : Except PError CloseSessionMessage :=
  match vLit "close_session" t, vStr c with
  | Except.ok _, Except.ok cv => Except.ok ⟨cv⟩
  | _, _ => Except.error PError.validation

/-- CloseSessionMessage.model_validate on a payload. -/
def CloseSessionMessage.model_validate (data : List (String × JsonVal)) :
    Except PError CloseSessionMessage :=
  closeValidateCore (alookup data "type") (alookup data "channel_id")

/-- protocol.parse_inbound: dispatch on data.get of the type key (a Python
string comparison, so a non-string tag value matches neither branch), then
validate the chosen model. -/
def parse_inbound (data : List (String × JsonVal)) : Except PError InboundMessage :=
  match alookup data "type" with
  | some (JsonVal.str t) =>
    if t = "query" then (QueryMessage.model_validate data).map InboundMessage.query
    else if t = "close_session" then
      (CloseSessionMessage.model_validate data).map InboundMessage.close_session
    else Except.error PError.unknownType
  | _ => Except.error PError.unknownType

/-- True on a successful Except result. -/
def exceptOk {ε α : Type} : Except ε α → Bool
  | Except.ok _ => true
  | Except.error _ => false

-- ---------------------------------------------------------------------------
-- mcp_loader.py : expand_env_vars and load_mcp_config
-- ---------------------------------------------------------------------------

/-- The three observable states of the workspace .mcp.json file: absent,
present but failing json.load, or parsed to a JSON value. -/
inductive McpFile where
  | missing
  | unparsable
  | parsed (j : JsonVal)

mutual
/-- mcp_loader.expand_env_vars: apply the environment substitution ev (the
model of os.path.expandvars, an external total function on strings) to every
string, recursing through dicts and lists; other values are returned as is. -/
def expand_env_vars (ev : String → String) : JsonVal → JsonVal
  | JsonVal.null => JsonVal.null
  | JsonVal.bool b => JsonVal.bool b
  | JsonVal.num n => JsonVal.num n
  | JsonVal.str s => JsonVal.str (ev s)
  | JsonVal.arr elems => JsonVal.arr (expandElems ev elems)
  | JsonVal.obj fields => JsonVal.obj (expandPairs ev fields)

/-- expand_env_vars mapped over the elements of a list value. -/
def expandElems (ev : String → String) : List JsonVal → List JsonVal
  | [] => []
  | x :: rest => expand_env_vars ev x :: expandElems ev rest

/-- expand_env_vars mapped over the values of a dict. -/
def expandPairs (ev : String → String) : List (String × JsonVal) → List (String × JsonVal)
  | [] => []
  | (k, v) :: rest => (k, expand_env_vars ev v) :: expandPairs ev rest
end

/-- The config value returned by load_mcp_config on every failure path. -/
def emptyConfig : JsonVal := JsonVal.obj [("mcpServers", JsonVal.obj [])]

/-- Whether Python len() is defined on the value: strings, lists and dicts
have a length, while None, booleans and numbers make len raise TypeError. -/
def hasLen : JsonVal → Bool
  | JsonVal.str _ => true
  | JsonVal.arr _ => true
  | JsonVal.obj _ => true
  | _ => false

/-- The tail of load_mcp_config after expansion: ensure the mcpServers key
exists, then log len of its value.  On a non-dict config every path raises
TypeError inside the try block (the membership test on a number, the item
assignment on a string or list, or the len lookup), and a dict whose
mcpServers value has no len makes the logging call raise; all of these are
modelled as the error case, which the caller turns into emptyConfig. -/
def ensureAndLog : JsonVal → Except Unit JsonVal
  | JsonVal.obj fields =>
    let fields2 := if (alookup fields "mcpServers").isSome then fields
                   else fields ++ [("mcpServers", JsonVal.obj [])]
    match alookup fields2 "mcpServers" with
    | some v => if hasLen v then Except.ok (JsonVal.obj fields2) else Except.error ()
    | none => Except.error ()
  | _ => Except.error ()

/-- mcp_loader.load_mcp_config: empty config when the file is missing; inside
a try block, parse, expand environment variables, ensure the mcpServers key
and log; every exception (JSONDecodeError or anything else) is caught and
turned into the empty config. -/
def load_mcp_config (ev : String → String) (file : McpFile) : JsonVal :=
  match file with
  | McpFile.missing => emptyConfig
  | McpFile.unparsable => emptyConfig
  | McpFile.parsed j =>
    match ensureAndLog (expand_env_vars ev j) with
    | Except.ok c => c
    | Except.error _ => emptyConfig

/-- The tool-server mapping carried by a loader result: the mcpServers entry
of the returned dict. -/
def toolServers : JsonVal → Option JsonVal
  | JsonVal.obj fields => alookup fields "mcpServers"
  | _ => none

-- ---------------------------------------------------------------------------
-- session.py : ChannelSession, SessionManager, process_query
-- ---------------------------------------------------------------------------

/-- session.ChannelSession.  last_activity is the time.time() timestamp;
session_id is the resumption token (None until one is observed). -/
structure ChannelSession where
  channel_id : String
  workspace : String
  last_activity : Rat
  session_id : Option String
deriving DecidableEq

/-- session.SessionManager state: the sessions dict and the idle timeout. -/
structure SessionManager where
  sessions : List (String × ChannelSession)
  idle_timeout : Rat
deriving DecidableEq

/-- SessionManager.get_or_create_session at time now: an existing session for
the channel is touched and returned (workspace and resume_id arguments are
ignored); otherwise a fresh session with session_id = resume_id is inserted.
Touching mutates the stored record in place, modelled by updating its
registry entry. -/
def get_or_create_session (mgr : SessionManager) (now : Rat)
    (channel_id workspace : String) (resume_id : Option String) :
    ChannelSession × SessionManager :=
  match alookup mgr.sessions channel_id with
  | some s =>
    let s2 := { s with last_activity := now }
    (s2, { mgr with sessions := aupdate mgr.sessions channel_id s2 })
  | none =>
    let s : ChannelSession :=
      { channel_id := channel_id, workspace := workspace,
        last_activity := now, session_id := resume_id }
    (s, { mgr with sessions := mgr.sessions ++ [(channel_id, s)] })

/-- SessionManager._cleanup_idle_sessions at time now: collect every channel
whose inactivity strictly exceeds idle_timeout, then pop and close each.
Returns the surviving manager and the closed entries. -/
def cleanup_idle_sessions (mgr : SessionManager) (now : Rat) :
    SessionManager × List (String × ChannelSession) :=
  ({ mgr with sessions :=
      mgr.sessions.filter fun kv => !decide (now - kv.2.last_activity > mgr.idle_timeout) },
   mgr.sessions.filter fun kv => decide (now - kv.2.last_activity > mgr.idle_timeout))

/-- SessionManager.close_session: pop the channel entry if present (the
session close itself only logs). -/
def close_session (mgr : SessionManager) (channel_id : String) : SessionManager :=
  { mgr with sessions := aremove mgr.sessions channel_id }

/-- The content blocks of an SDK AssistantMessage that process_query
distinguishes: text blocks, tool-use blocks, and everything else. -/
inductive Block where
  | textBlock (text : String)
  | toolUseBlock (name : String) (input : List (String × JsonVal))
  | otherBlock

/-- The SDK messages the query() event stream can produce. -/
inductive SdkMessage where
  | assistant (content : List Block)
  | result (session_id : String)
  | system
  | user

/-- One run of the external query engine: the events it yields in order, then
optionally an exception it raises (an engine failing before its first event
is a run with no events and a failure). -/
structure EngineRun where
  events : List SdkMessage
  failure : Option String

/-- The outbound message emitted for one assistant content block: text blocks
and tool-use blocks are relayed, other blocks are skipped. -/
def consumeBlock (query_id channel_id : String) : Block → Option OutboundMessage
  | Block.textBlock s => some (OutboundMessage.text ⟨query_id, channel_id, s⟩)
  | Block.toolUseBlock name input =>
      some (OutboundMessage.tool_use ⟨query_id, channel_id, name, input⟩)
  | Block.otherBlock => none

/-- All non-terminal messages produced for a list of engine events, in engine
order: assistant messages contribute their relayed blocks, every other event
contributes nothing directly. -/
def eventMessages (query_id channel_id : String) (events : List SdkMessage) :
    List OutboundMessage :=
  (events.map fun e =>
    match e with
    | SdkMessage.assistant blocks => blocks.filterMap (consumeBlock query_id channel_id)
    | _ => []).flatten

/-- The body of the async-for loop of process_query, threading the emitted
messages, the local result_session_id (updated by each ResultMessage with a
truthy session_id) and the session record session_id mutated at that same
moment. -/
def queryStep (query_id channel_id : String)
    (acc : List OutboundMessage × String × Option String) (m : SdkMessage) :
    List OutboundMessage × String × Option String :=
  match m with
  | SdkMessage.assistant blocks =>
      (acc.1 ++ blocks.filterMap (consumeBlock query_id channel_id), acc.2)
  | SdkMessage.result s => if s = "" then acc else (acc.1, s, some s)
  | _ => acc

/-- The last truthy resumption token reported by the event stream, if any. -/
def lastReported : List SdkMessage → Option String
  | [] => none
  | SdkMessage.result s :: rest =>
    (match lastReported rest with
     | some tk => some tk
     | none => if s = "" then none else some s)
  | _ :: rest => lastReported rest

/-- The resumption token the session for the channel would start the call
with: the stored token for an existing session, the supplied resume_id for a
session created by this call. -/
def priorResumption (mgr : SessionManager) (channel_id : String)
    (resume_id : Option String) : Option String :=
  match alookup mgr.sessions channel_id with
  | some s => s.session_id
  | none => resume_id

/-- SessionManager.process_query.  The session is resolved via
get_or_create_session and touched (same timestamp, hence a no-op here).  The
setup argument models an exception raised between session resolution and the
engine invocation (load_mcp_config itself never raises, but option building
may); run models the engine event stream and an optional engine failure.  The
event loop relays text and tool-use blocks in order and latches each truthy
ResultMessage session_id into both the local result and the shared session
record at the moment it is consumed.  On exhaustion a single done message is
emitted, with result_session_id, else the session token, else the empty
string; any exception instead yields a single error message carrying str(e).
Returns the emitted messages in order and the manager state after the call. -/
def process_query (mgr : SessionManager) (now : Rat)
    (query_id channel_id workspace prompt : String) (resume_id : Option String)
    (setup : Option String) (run : EngineRun) :
    List OutboundMessage × SessionManager :=
  let r := get_or_create_session mgr now channel_id workspace resume_id
  let session := r.1
  let mgr1 := r.2
  match setup with
  | some e => ([OutboundMessage.error ⟨query_id, channel_id, e⟩], mgr1)
  | none =>
    let acc := run.events.foldl (queryStep query_id channel_id) ([], "", session.session_id)
    let finalSession := { session with session_id := acc.2.2 }
    let mgr2 : SessionManager :=
      { mgr1 with sessions := aupdate mgr1.sessions channel_id finalSession }
    match run.failure with
    | some e => (acc.1 ++ [OutboundMessage.error ⟨query_id, channel_id, e⟩], mgr2)
    | none =>
      (acc.1 ++ [OutboundMessage.done
        ⟨query_id, channel_id,
         if acc.2.1 = "" then finalSession.session_id.getD "" else acc.2.1⟩], mgr2)

/-- Whether an outbound message is terminal (done or error). -/
def isTerminalB : OutboundMessage → Bool
  | OutboundMessage.done _ => true
  | OutboundMessage.error _ => true
  | _ => false

-- ---------------------------------------------------------------------------
-- server.py : _handle_query and _handle_message
-- ---------------------------------------------------------------------------

/-- The keyword arguments of one Python call of process_query: none means the
keyword was not passed at all (for resume_id, whose parameter has a default,
the outer Option is presence and the inner is the passed value). -/
structure ProcessQueryCall where
  query_id : Option String := none
  channel_id : Option String := none
  workspace : Option String := none
  prompt : Option String := none
  resume_id : Option (Option String) := none

/-- The positional parameters of process_query after binding. -/
structure BoundQueryArgs where
  query_id : String
  channel_id : String
  workspace : String
  prompt : String
  resume_id : Option String

/-- Python call binding for process_query: each parameter without a default
must be supplied or the call raises TypeError before the generator body ever
runs; resume_id falls back to its default None. -/
def bindProcessQueryCall (c : ProcessQueryCall) : Except String BoundQueryArgs :=
  match c.query_id, c.channel_id, c.workspace, c.prompt with
  | some q, some cid, some ws, some p => Except.ok ⟨q, cid, ws, p, c.resume_id.getD none⟩
  | none, _, _, _ => Except.error "TypeError: process_query missing required argument query_id"
  | _, none, _, _ => Except.error "TypeError: process_query missing required argument channel_id"
  | _, _, none, _ => Except.error "TypeError: process_query missing required argument workspace"
  | _, _, _, none => Except.error "TypeError: process_query missing required argument prompt"

/-- ClaudeJailServer._handle_query: iterate process_query for the parsed
QueryMessage and send each response.  The call site passes channel_id,
workspace, prompt and resume_id as keywords and does not pass query_id, so
binding is modelled explicitly; a binding failure raises out of the handler
and no message is sent. -/
def handle_query (mgr : SessionManager) (now : Rat) (m : QueryMessage)
    (setup : Option String) (run : EngineRun) :
    Except String (List OutboundMessage × SessionManager) :=
  match bindProcessQueryCall
      { channel_id := some m.channel_id, workspace := some m.workspace,
        prompt := some m.prompt, resume_id := some m.session_id } with
  | Except.error e => Except.error e
  | Except.ok a =>
      Except.ok (process_query mgr now a.query_id a.channel_id a.workspace a.prompt
        a.resume_id setup run)

/-- One inbound websocket frame as seen by _handle_message: either text that
fails UTF-8 decoding or json.loads (UnicodeDecodeError and JSONDecodeError,
both caught), or a successfully parsed JSON value. -/
inductive Frame where
  | badText
  | json (j : JsonVal)

/-- The outcome of _handle_message: either the handler returned normally (the
messages it wrote, and the manager state afterwards) and the connection read
loop continues, or an exception escaped the handler, ending the read loop of
_handle_connection (which logs it and closes the connection). -/
inductive HandleOutcome where
  | handled (writes : List OutboundMessage) (mgr : SessionManager)
  | uncaught (writes : List OutboundMessage) (mgr : SessionManager) (exn : String)

/-- Whether a JSON value is an object (a Python dict). -/
def isObjB : JsonVal → Bool
  | JsonVal.obj _ => true
  | _ => false

/-- ClaudeJailServer._handle_message: decode failures and json.loads failures
are caught and logged; parse_inbound failures (ValueError, including pydantic
ValidationError) are caught and logged; a decoded query runs _handle_query
(whose TypeError is not a ValueError and escapes); close_session pops the
registry entry and writes nothing.  When json.loads yields a non-dict value,
parse_inbound calls .get on it and the AttributeError escapes the except
clauses, ending the read loop. -/
def handle_message (mgr : SessionManager) (now : Rat) (f : Frame)
    (setup : Option String) (run : EngineRun) : HandleOutcome :=
  match f with
  | Frame.badText => HandleOutcome.handled [] mgr
  | Frame.json (JsonVal.obj fields) =>
    (match parse_inbound fields with
     | Except.error _ => HandleOutcome.handled [] mgr
     | Except.ok (InboundMessage.query qm) =>
       (match handle_query mgr now qm setup run with
        | Except.error e => HandleOutcome.uncaught [] mgr e
        | Except.ok r => HandleOutcome.handled r.1 r.2)
     | Except.ok (InboundMessage.close_session cm) =>
       HandleOutcome.handled [] (close_session mgr cm.channel_id))
  | Frame.json _ => HandleOutcome.uncaught [] mgr "AttributeError: get"

-- ---------------------------------------------------------------------------
-- Spec-side definitions for the codec claims
-- ---------------------------------------------------------------------------

/-- Whether an optional JSON value is a present string. -/
def isStrJ : Option JsonVal → Bool
  | some (JsonVal.str _) => true
  | _ => false

/-- Spec-side validation of the query variant fields, written from the
amended claim: the four required fields must be present strings, the optional
session_id must be absent, null or a string, and on success the message is
fully populated from the payload. -/
def specQueryFields (q c w p s : Option JsonVal) : Except PError QueryMessage :=
  match q with
  | some (JsonVal.str qv) =>
    (match c with
     | some (JsonVal.str cv) =>
       (match w with
        | some (JsonVal.str wv) =>
          (match p with
           | some (JsonVal.str pv) =>
             (match s with
              | none => Except.ok ⟨qv, cv, wv, pv, none⟩
              | some JsonVal.null => Except.ok ⟨qv, cv, wv, pv, none⟩
              | some (JsonVal.str sv) => Except.ok ⟨qv, cv, wv, pv, some sv⟩
              | some _ => Except.error PError.validation)
           | _ => Except.error PError.validation)
        | _ => Except.error PError.validation)
     | _ => Except.error PError.validation)
  | _ => Except.error PError.validation

/-- Spec-side decode, written from the amended claim: unknown or missing or
non-string discriminators are rejected as unknown; the selected variant is
rejected exactly when a declared field is absent while required or present
and mistyped; otherwise the fully populated message is returned. -/
def specDecode (fields : List (String × JsonVal)) : Except PError InboundMessage :=
  match alookup fields "type" with
  | some (JsonVal.str t) =>
    if t = "query" then
      (specQueryFields (alookup fields "query_id") (alookup fields "channel_id")
        (alookup fields "workspace") (alookup fields "prompt")
        (alookup fields "session_id")).map InboundMessage.query
    else if t = "close_session" then
      (match alookup fields "channel_id" with
       | some (JsonVal.str cv) => Except.ok (InboundMessage.close_session ⟨cv⟩)
       | _ => Except.error PError.validation)
    else Except.error PError.unknownType
  | _ => Except.error PError.unknownType

/-- The failure condition of claim C7 exactly as stated: the discriminator is
missing or not a recognized tag, or a required field of the selected variant
is absent or mistyped.  (It says nothing about the optional session_id.) -/
def c7ClaimFailB (fields : List (String × JsonVal)) : Bool :=
  match alookup fields "type" with
  | some (JsonVal.str t) =>
    if t = "query" then
      !(isStrJ (alookup fields "query_id") && isStrJ (alookup fields "channel_id") &&
        isStrJ (alookup fields "workspace") && isStrJ (alookup fields "prompt"))
    else if t = "close_session" then !(isStrJ (alookup fields "channel_id"))
    else true
  | _ => true

/-- The keys of the query variant that are required (counting the tag). -/
def isQueryReqKeyB (k : String) : Bool :=
  k == "type" || k == "query_id" || k == "channel_id" || k == "workspace" || k == "prompt"

/-- All declared keys of the query variant. -/
def isQueryKeyB (k : String) : Bool :=
  isQueryReqKeyB k || k == "session_id"

/-- All declared keys of the close_session variant. -/
def isCloseKeyB (k : String) : Bool :=
  k == "type" || k == "channel_id"

/-- A payload with the extra fields of the query variant removed. -/
def keepQueryKeys (fields : List (String × JsonVal)) : List (String × JsonVal) :=
  fields.filter fun kv => isQueryKeyB kv.1

/-- A payload with the extra fields of the close_session variant removed. -/
def keepCloseKeys (fields : List (String × JsonVal)) : List (String × JsonVal) :=
  fields.filter fun kv => isCloseKeyB kv.1

/-- Claim C10 domain, query variant: the tag is query, every required field
is a present string, and every key is either a required key or entirely
unrecognized (so the payload is the required fields plus extra fields). -/
def queryShapedB (fields : List (String × JsonVal)) : Bool :=
  (match alookup fields "type" with
   | some (JsonVal.str s) => s == "query"
   | _ => false) &&
  isStrJ (alookup fields "query_id") && isStrJ (alookup fields "channel_id") &&
  isStrJ (alookup fields "workspace") && isStrJ (alookup fields "prompt") &&
  fields.all fun kv => isQueryReqKeyB kv.1 || !isQueryKeyB kv.1

/-- Claim C10 domain, close_session variant: the tag is close_session and the
required channel_id is a present string (every declared key of this variant
is required, so extras are exactly the unrecognized keys). -/
def closeShapedB (fields : List (String × JsonVal)) : Bool :=
  (match alookup fields "type" with
   | some (JsonVal.str s) => s == "close_session"
   | _ => false) &&
  isStrJ (alookup fields "channel_id")

-- ---------------------------------------------------------------------------
-- Helper lemmas on association lists
-- ---------------------------------------------------------------------------

theorem alookup_mem {α : Type} {l : List (String × α)} {k : String} {v : α}
    (h : alookup l k = some v) : (k, v) ∈ l := by
  induction l with
  | nil => simp [alookup] at h
  | cons kv rest ih =>
    obtain ⟨k0, v0⟩ := kv
    by_cases hk : k0 = k
    · subst hk
      simp [alookup] at h
      simp [h]
    · simp [alookup, hk] at h
      exact List.mem_cons_of_mem _ (ih h)

theorem alookup_filter {α : Type} (p : String × α → Bool) (l : List (String × α)) (k : String)
    (hp : ∀ v, p (k, v) = true) : alookup (l.filter p) k = alookup l k := by
  induction l with
  | nil => rfl
  | cons kv rest ih =>
    obtain ⟨k0, v0⟩ := kv
    by_cases hk : k0 = k
    · subst hk
      rw [List.filter_cons_of_pos (hp v0)]
      simp [alookup]
    · cases hpk : p (k0, v0) with
      | true => rw [List.filter_cons_of_pos hpk]; simp [alookup, hk, ih]
      | false => rw [List.filter_cons_of_neg (by simp [hpk])]; simp [alookup, hk, ih]

theorem alookup_append {α : Type} (l m : List (String × α)) (k : String) :
    alookup (l ++ m) k =
      match alookup l k with
      | some v => some v
      | none => alookup m k := by
  induction l with
  | nil => simp [alookup]
  | cons kv rest ih =>
    obtain ⟨k0, v0⟩ := kv
    by_cases hk : k0 = k <;> simp [alookup, hk, ih]

theorem alookup_aupdate_self {α : Type} {l : List (String × α)} {k : String} (v : α)
    (h : (alookup l k).isSome = true) : alookup (aupdate l k v) k = some v := by
  induction l with
  | nil => simp [alookup] at h
  | cons kv rest ih =>
    obtain ⟨k0, v0⟩ := kv
    by_cases hk : k0 = k
    · subst hk; simp [aupdate, alookup]
    · simp [alookup, hk] at h
      simp [aupdate, alookup, hk, ih h]

theorem alookup_aupdate_ne {α : Type} {l : List (String × α)} {k k2 : String} (v : α)
    (h : k2 ≠ k) : alookup (aupdate l k v) k2 = alookup l k2 := by
  induction l with
  | nil => rfl
  | cons kv rest ih =>
    obtain ⟨k0, v0⟩ := kv
    by_cases hk : k0 = k
    · subst hk
      simp [aupdate, alookup, Ne.symm h]
    · by_cases hk2 : k0 = k2 <;> simp [aupdate, alookup, hk, hk2, h, ih]

-- ---------------------------------------------------------------------------
-- Helper lemmas on the config loader
-- ---------------------------------------------------------------------------

theorem alookup_expandPairs (ev : String → String) (l : List (String × JsonVal)) (k : String) :
    alookup (expandPairs ev l) k = (alookup l k).map (expand_env_vars ev) := by
  induction l with
  | nil => rfl
  | cons kv rest ih =>
    obtain ⟨k0, v0⟩ := kv
    by_cases hk : k0 = k <;> simp [expandPairs, alookup, hk, ih]

theorem hasLen_expand (ev : String → String) (v : JsonVal) :
    hasLen (expand_env_vars ev v) = hasLen v := by
  cases v <;> rfl

-- ---------------------------------------------------------------------------
-- Helper lemmas on the codec
-- ---------------------------------------------------------------------------

theorem isStrJ_iff {o : Option JsonVal} : isStrJ o = true ↔ ∃ s, o = some (JsonVal.str s) := by
  cases o with
  | none => simp [isStrJ]
  | some j => cases j <;> simp [isStrJ]

/-- The pydantic validation chain of the query variant agrees with the
spec-side field validation once the discriminator is the query tag. -/
theorem queryCore_eq_spec (q c w p s : Option JsonVal) :
    queryValidateCore (some (JsonVal.str "query")) q c w p s = specQueryFields q c w p s := by
  cases q with
  | none => rfl
  | some jq =>
    cases jq with
    | null => rfl
    | bool b => rfl
    | num n => rfl
    | arr a => rfl
    | obj o => rfl
    | str qv =>
      cases c with
      | none => rfl
      | some jc =>
        cases jc with
        | null => rfl
        | bool b => rfl
        | num n => rfl
        | arr a => rfl
        | obj o => rfl
        | str cv =>
          cases w with
          | none => rfl
          | some jw =>
            cases jw with
            | null => rfl
            | bool b => rfl
            | num n => rfl
            | arr a => rfl
            | obj o => rfl
            | str wv =>
              cases p with
              | none => rfl
              | some jp =>
                cases jp with
                | null => rfl
                | bool b => rfl
                | num n => rfl
                | arr a => rfl
                | obj o => rfl
                | str pv =>
                  cases s with
                  | none => rfl
                  | some js => cases js <;> rfl

/-- The pydantic validation of the close_session variant agrees with the
direct match on its channel_id once the discriminator is the close tag. -/
theorem closeCore_eq_spec (c : Option JsonVal) :
    closeValidateCore (some (JsonVal.str "close_session")) c =
      match c with
      | some (JsonVal.str cv) => Except.ok (⟨cv⟩ : CloseSessionMessage)
      | _ => Except.error PError.validation := by
  cases c with
  | none => rfl
  | some jc => cases jc <;> rfl

-- ---------------------------------------------------------------------------
-- Helper lemmas on the orchestrator event loop
-- ---------------------------------------------------------------------------

/-- The event loop of process_query, characterised: it appends the relayed
messages in engine order, its local result id ends at the last truthy token
(defaulting to the initial value), and the session field ends at that token
when one exists and is otherwise untouched. -/
theorem foldl_queryStep_spec (query_id channel_id : String) :
    ∀ (events : List SdkMessage) (out0 : List OutboundMessage) (rsid0 : String)
      (ssid0 : Option String),
      events.foldl (queryStep query_id channel_id) (out0, rsid0, ssid0) =
        (out0 ++ eventMessages query_id channel_id events,
         (lastReported events).getD rsid0,
         match lastReported events with
         | some tk => some tk
         | none => ssid0) := by
  intro events
  induction events with
  | nil => intro out0 rsid0 ssid0; simp [eventMessages, lastReported]
  | cons e rest ih =>
    intro out0 rsid0 ssid0
    cases e with
    | assistant blocks =>
      simp [List.foldl_cons, queryStep, eventMessages, lastReported, ih]
    | result s =>
      by_cases hs : s = ""
      · subst hs
        simp [List.foldl_cons, queryStep, eventMessages, lastReported, ih]
        cases h : lastReported rest <;> simp [h]
      · simp [List.foldl_cons, queryStep, hs, eventMessages, lastReported, ih]
        cases h : lastReported rest <;> simp [h]
    | system => simp [List.foldl_cons, queryStep, eventMessages, lastReported, ih]
    | user => simp [List.foldl_cons, queryStep, eventMessages, lastReported, ih]

/-- A reported resumption token is never the empty string. -/
theorem lastReported_ne_empty : ∀ {events : List SdkMessage} {tk : String},
    lastReported events = some tk → tk ≠ "" := by
  intro events
  induction events with
  | nil => intro tk h; simp [lastReported] at h
  | cons e rest ih =>
    intro tk h
    cases e with
    | assistant blocks => exact ih (by simpa [lastReported] using h)
    | system => exact ih (by simpa [lastReported] using h)
    | user => exact ih (by simpa [lastReported] using h)
    | result s =>
      simp only [lastReported] at h
      cases hr : lastReported rest with
      | some tk2 =>
        rw [hr] at h
        simp at h
        exact h ▸ ih hr
      | none =>
        rw [hr] at h
        by_cases hs : s = ""
        · simp [hs] at h
        · simp [hs] at h
          exact h ▸ hs

/-- Every message relayed for an engine event is a text or tool-use message,
never a terminal one. -/
theorem eventMessages_nonterminal (query_id channel_id : String)
    (events : List SdkMessage) :
    (eventMessages query_id channel_id events).all (fun m => !isTerminalB m) = true := by
  induction events with
  | nil => rfl
  | cons e rest ih =>
    cases e with
    | assistant blocks =>
      simp only [eventMessages, List.map_cons, List.flatten_cons, List.all_append,
        Bool.and_eq_true]
      constructor
      · rw [List.all_eq_true]
        intro m hm
        rcases List.mem_filterMap.1 hm with ⟨b, _, hb⟩
        cases b with
        | textBlock s => simp [consumeBlock] at hb; simp [← hb, isTerminalB]
        | toolUseBlock n i => simp [consumeBlock] at hb; simp [← hb, isTerminalB]
        | otherBlock => simp [consumeBlock] at hb
      · simpa [eventMessages] using ih
    | result s => simpa [eventMessages] using ih
    | system => simpa [eventMessages] using ih
    | user => simpa [eventMessages] using ih

-- ---------------------------------------------------------------------------
-- Claim theorems
-- ---------------------------------------------------------------------------

/-- C1: the claim says every outbound message written for an inbound Query
carries that query's query_id verbatim.  The code cannot do this: the server
call site omits the required query_id argument of process_query, so every
query raises TypeError before a single message is produced, contradicting
the documented contract that query_id is echoed in all responses.  This
theorem evaluates the handler on every query message. -/
theorem c1_handle_query_type_error (mgr : SessionManager) (now : Rat) (m : QueryMessage)
    (setup : Option String) (run : EngineRun) :
    handle_query mgr now m setup run =
      Except.error "TypeError: process_query missing required argument query_id" := rfl

/-- C5: the idle sweep removes exactly the sessions whose inactivity strictly
exceeds the timeout, keeps every other session with its record untouched and
the timeout unchanged, and in particular with timeout 900 a session last
active 1000 ago is removed while one last active 100 ago is retained. -/
theorem c5_idle_sweep_exact (mgr : SessionManager) (now : Rat) :
    (∀ cid s, (cid, s) ∈ (cleanup_idle_sessions mgr now).2 ↔
       ((cid, s) ∈ mgr.sessions ∧ now - s.last_activity > mgr.idle_timeout)) ∧
    (∀ cid s, (cid, s) ∈ (cleanup_idle_sessions mgr now).1.sessions ↔
       ((cid, s) ∈ mgr.sessions ∧ ¬(now - s.last_activity > mgr.idle_timeout))) ∧
    (cleanup_idle_sessions mgr now).1.idle_timeout = mgr.idle_timeout ∧
    (cleanup_idle_sessions
        ⟨[("a", ⟨"a", "w", now - 1000, none⟩), ("b", ⟨"b", "w", now - 100, none⟩)], 900⟩
        now).2 = [("a", ⟨"a", "w", now - 1000, none⟩)] ∧
    (cleanup_idle_sessions
        ⟨[("a", ⟨"a", "w", now - 1000, none⟩), ("b", ⟨"b", "w", now - 100, none⟩)], 900⟩
        now).1.sessions = [("b", ⟨"b", "w", now - 100, none⟩)] := by
  have h1 : now - (now - 1000) > (900 : Rat) := by
    have e : now - (now - 1000) = (1000 : Rat) := by ring
    rw [e]; norm_num
  have h2 : ¬(now - (now - 100) > (900 : Rat)) := by
    have e : now - (now - 100) = (100 : Rat) := by ring
    rw [e]; norm_num
  refine ⟨?_, ?_, rfl, ?_, ?_⟩
  · intro cid s
    simp [cleanup_idle_sessions, List.mem_filter]
  · intro cid s
    simp [cleanup_idle_sessions, List.mem_filter]
  · simp [cleanup_idle_sessions, List.filter_cons, h1, h2]
    norm_num
  · simp [cleanup_idle_sessions, List.filter_cons, h1, h2]
    norm_num

/-- C6: for a channel already present, get_or_create_session returns the
stored session with only last_activity set to now (channel_id, workspace and
the resumption token are untouched even when the arguments differ), stores
that same record back under the channel, leaves every other channel and the
timeout unchanged, and a repeated call keeps returning the same record with
only the timestamp refreshed; for an absent channel it inserts a fresh
session whose resumption token is the supplied resume_id. -/
theorem c6_get_or_create_frame (mgr : SessionManager) (now : Rat)
    (cid ws : String) (rid : Option String) :
    (∀ s, alookup mgr.sessions cid = some s →
       (get_or_create_session mgr now cid ws rid).1 = { s with last_activity := now } ∧
       alookup (get_or_create_session mgr now cid ws rid).2.sessions cid =
         some { s with last_activity := now } ∧
       (∀ c2, c2 ≠ cid → alookup (get_or_create_session mgr now cid ws rid).2.sessions c2 =
         alookup mgr.sessions c2) ∧
       (get_or_create_session mgr now cid ws rid).2.idle_timeout = mgr.idle_timeout ∧
       (∀ (now2 : Rat) (ws2 : String) (rid2 : Option String),
          (get_or_create_session (get_or_create_session mgr now cid ws rid).2
             now2 cid ws2 rid2).1 = { s with last_activity := now2 })) ∧
    (alookup mgr.sessions cid = none →
       (get_or_create_session mgr now cid ws rid).1 =
         (⟨cid, ws, now, rid⟩ : ChannelSession) ∧
       alookup (get_or_create_session mgr now cid ws rid).2.sessions cid =
         some (⟨cid, ws, now, rid⟩ : ChannelSession) ∧
       (∀ c2, c2 ≠ cid → alookup (get_or_create_session mgr now cid ws rid).2.sessions c2 =
         alookup mgr.sessions c2)) := by
  constructor
  · intro s hs
    have hg : get_or_create_session mgr now cid ws rid =
        ({ s with last_activity := now },
         { mgr with sessions := aupdate mgr.sessions cid { s with last_activity := now } }) := by
      unfold get_or_create_session; rw [hs]
    have hup : alookup (aupdate mgr.sessions cid { s with last_activity := now }) cid =
        some { s with last_activity := now } :=
      alookup_aupdate_self _ (by simp [hs])
    refine ⟨by rw [hg], by rw [hg]; exact hup, ?_, by rw [hg], ?_⟩
    · intro c2 hc2
      rw [hg]
      exact alookup_aupdate_ne _ hc2
    · intro now2 ws2 rid2
      rw [hg]
      unfold get_or_create_session
      rw [hup]
  · intro hn
    have hg : get_or_create_session mgr now cid ws rid =
        ((⟨cid, ws, now, rid⟩ : ChannelSession),
         { mgr with sessions := mgr.sessions ++ [(cid, ⟨cid, ws, now, rid⟩)] }) := by
      unfold get_or_create_session; rw [hn]
    refine ⟨by rw [hg], ?_, ?_⟩
    · rw [hg]
      rw [alookup_append, hn]
      simp [alookup]
    · intro c2 hc2
      rw [hg]
      rw [alookup_append]
      cases h2 : alookup mgr.sessions c2 with
      | some v => rfl
      | none => simp [alookup, Ne.symm hc2]

/-- C6 witness: a second call for an existing channel with a different
workspace and resume_id returns the stored session with only the timestamp
refreshed and stores it back. -/
theorem c6_get_or_create_frame_witness :
    (get_or_create_session ⟨[("c", ⟨"c", "w0", 5, some "t"⟩)], 900⟩ 7 "c" "wNew"
       (some "r2")).1 = (⟨"c", "w0", 7, some "t"⟩ : ChannelSession) ∧
    alookup (get_or_create_session ⟨[("c", ⟨"c", "w0", 5, some "t"⟩)], 900⟩ 7 "c" "wNew"
       (some "r2")).2.sessions "c" = some (⟨"c", "w0", 7, some "t"⟩ : ChannelSession) := by
  have h := (c6_get_or_create_frame ⟨[("c", ⟨"c", "w0", 5, some "t"⟩)], 900⟩ 7 "c" "wNew"
    (some "r2")).1 ⟨"c", "w0", 5, some "t"⟩ (by rfl)
  exact ⟨h.1, h.2.1⟩

/-- C7 (amended): decode fails exactly when the discriminator is missing or
not a recognized tag, or a declared field of the selected variant is absent
while required or present with a mistyped value, the optional session_id
included; otherwise the fully populated message is returned.  Stated as the
equality of parse_inbound with the spec-side decode written from that
characterisation. -/
theorem c7_decode_exact_conditions (fields : List (String × JsonVal)) :
    parse_inbound fields = specDecode fields := by
  cases ht : alookup fields "type" with
  | none => simp [parse_inbound, specDecode, ht]
  | some j =>
    cases j with
    | null => simp [parse_inbound, specDecode, ht]
    | bool b => simp [parse_inbound, specDecode, ht]
    | num n => simp [parse_inbound, specDecode, ht]
    | arr a => simp [parse_inbound, specDecode, ht]
    | obj o => simp [parse_inbound, specDecode, ht]
    | str t =>
      by_cases hq : t = "query"
      · subst hq
        simp [parse_inbound, specDecode, ht, QueryMessage.model_validate, queryCore_eq_spec]
      · by_cases hc : t = "close_session"
        · subst hc
          cases hcl : alookup fields "channel_id" with
          | none =>
            simp [parse_inbound, specDecode, ht, CloseSessionMessage.model_validate,
              closeCore_eq_spec, hcl, Except.map]
          | some jc =>
            cases jc <;>
              simp [parse_inbound, specDecode, ht, CloseSessionMessage.model_validate,
                closeCore_eq_spec, hcl, Except.map]
        · simp [parse_inbound, specDecode, ht, hq, hc]

/-- C7 counterexample: a query payload whose optional session_id is a number
satisfies none of the failure conditions the claim lists (the tag is query
and all four required fields are present strings), yet decode rejects it. -/
theorem c7_optional_field_counterexample :
    parse_inbound
      [("type", JsonVal.str "query"), ("query_id", JsonVal.str "q1"),
       ("channel_id", JsonVal.str "c1"), ("workspace", JsonVal.str "w"),
       ("prompt", JsonVal.str "p"), ("session_id", JsonVal.num 42)] =
      Except.error PError.validation ∧
    c7ClaimFailB
      [("type", JsonVal.str "query"), ("query_id", JsonVal.str "q1"),
       ("channel_id", JsonVal.str "c1"), ("workspace", JsonVal.str "w"),
       ("prompt", JsonVal.str "p"), ("session_id", JsonVal.num 42)] = false :=
  ⟨rfl, rfl⟩

/-- C9 (amended): a frame that is not valid JSON, or whose JSON is an object
that fails to decode, is swallowed at the handler boundary with no outbound
write and no registry change, and the read loop continues; but a frame whose
JSON is valid and not an object raises AttributeError past the handler,
still writing nothing and changing nothing, yet ending the connection read
loop instead of continuing. -/
theorem c9_malformed_frame_amended (mgr : SessionManager) (now : Rat)
    (setup : Option String) (run : EngineRun) :
    handle_message mgr now Frame.badText setup run = HandleOutcome.handled [] mgr ∧
    (∀ fields, exceptOk (parse_inbound fields) = false →
       handle_message mgr now (Frame.json (JsonVal.obj fields)) setup run =
         HandleOutcome.handled [] mgr) ∧
    (∀ j, isObjB j = false →
       handle_message mgr now (Frame.json j) setup run =
         HandleOutcome.uncaught [] mgr "AttributeError: get") := by
  refine ⟨rfl, ?_, ?_⟩
  · intro fields h
    cases hp : parse_inbound fields with
    | error e => simp [handle_message, hp]
    | ok m => rw [hp] at h; simp [exceptOk] at h
  · intro j hj
    cases j <;> simp_all [handle_message, isObjB]

/-- C9 witness: an object frame with an unrecognized tag is dropped with no
reply and no registry change, and the loop continues. -/
theorem c9_malformed_frame_amended_witness :
    handle_message ⟨[], 900⟩ 0 (Frame.json (JsonVal.obj [("type", JsonVal.str "bogus")]))
      none ⟨[], none⟩ = HandleOutcome.handled [] ⟨[], 900⟩ :=
  (c9_malformed_frame_amended ⟨[], 900⟩ 0 none ⟨[], none⟩).2.1
    [("type", JsonVal.str "bogus")] rfl

/-- C9 counterexample: the frame containing the valid JSON number 3 is
malformed input in the sense of the claim, and it indeed produces no
outbound message and leaves the registry unchanged, but the AttributeError
raised by parse dispatch escapes the handler and ends the read loop, so the
connection does not continue awaiting the next message as claimed. -/
theorem c9_nonobject_frame_counterexample :
    handle_message ⟨[], 900⟩ 0 (Frame.json (JsonVal.num 3)) none ⟨[], none⟩ =
      HandleOutcome.uncaught [] ⟨[], 900⟩ "AttributeError: get" ∧
    handle_message ⟨[], 900⟩ 0 (Frame.json (JsonVal.num 3)) none ⟨[], none⟩ ≠
      HandleOutcome.handled [] ⟨[], 900⟩ :=
  ⟨rfl, fun h => HandleOutcome.noConfusion h⟩

/-- Characterisation of the loader on a file parsed to a dict: without an
mcpServers key the expanded dict gains an empty one; with one whose value has
a Python len the expanded dict is returned as is; with one whose value has no
len the logging call raises and the loader falls back to the empty config. -/
theorem load_parsed_obj (ev : String → String) (fields : List (String × JsonVal)) :
    load_mcp_config ev (McpFile.parsed (JsonVal.obj fields)) =
      match alookup fields "mcpServers" with
      | none => JsonVal.obj (expandPairs ev fields ++ [("mcpServers", JsonVal.obj [])])
      | some sv =>
        if hasLen sv then JsonVal.obj (expandPairs ev fields) else emptyConfig := by
  unfold load_mcp_config
  cases hm : alookup fields "mcpServers" with
  | none =>
    have h1 : alookup (expandPairs ev fields) "mcpServers" = none := by
      rw [alookup_expandPairs, hm]; rfl
    have h2 : alookup (expandPairs ev fields ++ [("mcpServers", JsonVal.obj [])])
        "mcpServers" = some (JsonVal.obj []) := by
      rw [alookup_append, h1]; simp [alookup]
    simp [expand_env_vars, ensureAndLog, h1, h2, hasLen]
  | some sv =>
    have h1 : alookup (expandPairs ev fields) "mcpServers" = some (expand_env_vars ev sv) := by
      rw [alookup_expandPairs, hm]; rfl
    cases hl : hasLen sv with
    | true => simp [expand_env_vars, ensureAndLog, h1, hasLen_expand, hl]
    | false => simp [expand_env_vars, ensureAndLog, h1, hasLen_expand, hl]

/-- C8 (amended): the loader is total and always returns a dict carrying the
tool-server key; a missing or unparsable file yields the empty config; a file
parsed to a dict whose tool-server entry is a sized value is returned with
environment substitution applied throughout, its tool-server mapping being
the substituted entry; a parsed dict without the entry gains an empty one.
(A file parsed to a non-dict, or whose tool-server entry has no Python len,
also collapses to the empty config instead of being returned.) -/
theorem c8_load_total_amended (ev : String → String) (file : McpFile) :
    (∃ fields, load_mcp_config ev file = JsonVal.obj fields ∧
       (alookup fields "mcpServers").isSome = true) ∧
    ((file = McpFile.missing ∨ file = McpFile.unparsable) →
       load_mcp_config ev file = emptyConfig) ∧
    (∀ fields sv, file = McpFile.parsed (JsonVal.obj fields) →
       alookup fields "mcpServers" = some sv → hasLen sv = true →
       load_mcp_config ev file = expand_env_vars ev (JsonVal.obj fields) ∧
       toolServers (load_mcp_config ev file) = some (expand_env_vars ev sv)) ∧
    (∀ fields, file = McpFile.parsed (JsonVal.obj fields) →
       alookup fields "mcpServers" = none →
       load_mcp_config ev file =
         JsonVal.obj (expandPairs ev fields ++ [("mcpServers", JsonVal.obj [])])) := by
  refine ⟨?_, ?_, ?_, ?_⟩
  · cases file with
    | missing => exact ⟨[("mcpServers", JsonVal.obj [])], rfl, rfl⟩
    | unparsable => exact ⟨[("mcpServers", JsonVal.obj [])], rfl, rfl⟩
    | parsed j =>
      cases j with
      | null => exact ⟨[("mcpServers", JsonVal.obj [])], rfl, rfl⟩
      | bool b => exact ⟨[("mcpServers", JsonVal.obj [])], rfl, rfl⟩
      | num n => exact ⟨[("mcpServers", JsonVal.obj [])], rfl, rfl⟩
      | str s => exact ⟨[("mcpServers", JsonVal.obj [])], rfl, rfl⟩
      | arr a => exact ⟨[("mcpServers", JsonVal.obj [])], rfl, rfl⟩
      | obj fields =>
        rw [load_parsed_obj]
        cases hm : alookup fields "mcpServers" with
        | none =>
          refine ⟨expandPairs ev fields ++ [("mcpServers", JsonVal.obj [])], rfl, ?_⟩
          have h1 : alookup (expandPairs ev fields) "mcpServers" = none := by
            rw [alookup_expandPairs, hm]; rfl
          rw [alookup_append, h1]
          simp [alookup]
        | some sv =>
          cases hl : hasLen sv with
          | true =>
            refine ⟨expandPairs ev fields, by simp [hl], ?_⟩
            rw [alookup_expandPairs, hm]
            rfl
          | false => exact ⟨[("mcpServers", JsonVal.obj [])], by simp [hl, emptyConfig], rfl⟩
  · intro h
    cases h with
    | inl h => rw [h]; rfl
    | inr h => rw [h]; rfl
  · intro fields sv hf hm hl
    subst hf
    rw [load_parsed_obj, hm]
    simp only [hl, if_true]
    refine ⟨rfl, ?_⟩
    show alookup (expandPairs ev fields) "mcpServers" = some (expand_env_vars ev sv)
    rw [alookup_expandPairs, hm]
    rfl
  · intro fields hf hm
    subst hf
    rw [load_parsed_obj, hm]

/-- C8 counterexample: a config file containing the valid JSON literal 5
parses, but the loader returns the empty config rather than the (substituted)
parsed configuration, so the claim that a parsing file is returned with
substitution applied fails. -/
theorem c8_nonmapping_counterexample :
    load_mcp_config (fun s => s) (McpFile.parsed (JsonVal.num 5)) = emptyConfig ∧
    expand_env_vars (fun s => s) (JsonVal.num 5) = JsonVal.num 5 ∧
    emptyConfig ≠ JsonVal.num 5 :=
  ⟨rfl, rfl, fun h => JsonVal.noConfusion h⟩

/-- C8 witness: a parsed mapping with one tool server is returned with
environment substitution applied and its tool-server mapping intact. -/
theorem c8_load_total_amended_witness :
    load_mcp_config (fun s => s)
        (McpFile.parsed (JsonVal.obj [("mcpServers", JsonVal.obj [("a", JsonVal.str "x")])])) =
      JsonVal.obj [("mcpServers", JsonVal.obj [("a", JsonVal.str "x")])] ∧
    toolServers (load_mcp_config (fun s => s)
        (McpFile.parsed (JsonVal.obj [("mcpServers", JsonVal.obj [("a", JsonVal.str "x")])]))) =
      some (JsonVal.obj [("a", JsonVal.str "x")]) := by
  have h := (c8_load_total_amended (fun s => s)
    (McpFile.parsed (JsonVal.obj [("mcpServers", JsonVal.obj [("a", JsonVal.str "x")])]))).2.2.1
    [("mcpServers", JsonVal.obj [("a", JsonVal.str "x")])]
    (JsonVal.obj [("a", JsonVal.str "x")]) rfl rfl rfl
  exact ⟨h.1, h.2⟩

/-- Characterisation of process_query in terms of the resolved session, the
relayed event messages and the last reported resumption token. -/
theorem process_query_eq (mgr : SessionManager) (now : Rat)
    (qid cid ws pr : String) (rid : Option String) (setup : Option String) (run : EngineRun) :
    process_query mgr now qid cid ws pr rid setup run =
      match setup with
      | some e =>
        ([OutboundMessage.error ⟨qid, cid, e⟩], (get_or_create_session mgr now cid ws rid).2)
      | none =>
        let r := get_or_create_session mgr now cid ws rid
        let finalSession :=
          { r.1 with session_id :=
              match lastReported run.events with
              | some tk => some tk
              | none => r.1.session_id }
        let mgr2 : SessionManager :=
          { r.2 with sessions := aupdate r.2.sessions cid finalSession }
        match run.failure with
        | some e =>
          (eventMessages qid cid run.events ++ [OutboundMessage.error ⟨qid, cid, e⟩], mgr2)
        | none =>
          (eventMessages qid cid run.events ++ [OutboundMessage.done
            ⟨qid, cid,
             match lastReported run.events with
             | some tk => tk
             | none => r.1.session_id.getD ""⟩], mgr2) := by
  cases setup with
  | some e => rfl
  | none =>
    simp only [process_query]
    rw [foldl_queryStep_spec]
    cases hf : run.failure with
    | some e =>
      cases hl : lastReported run.events with
      | none => simp [hl]
      | some tk => simp [hl]
    | none =>
      cases hl : lastReported run.events with
      | none => simp [hl]
      | some tk =>
        have htk : tk ≠ "" := lastReported_ne_empty hl
        simp [hl, htk]

/-- C2: for every engine run, and whether or not setup or the engine raises,
process_query emits the relayed non-terminal messages in engine order (none
at all when setup raises) followed by exactly one terminal message, done or
error, as its last message; no relayed message is terminal. -/
theorem c2_exactly_one_terminal (mgr : SessionManager) (now : Rat)
    (qid cid ws pr : String) (rid : Option String) (setup : Option String) (run : EngineRun) :
    ∃ t, (process_query mgr now qid cid ws pr rid setup run).1 =
        (match setup with
         | some _ => []
         | none => eventMessages qid cid run.events) ++ [t] ∧
      isTerminalB t = true ∧
      (eventMessages qid cid run.events).all (fun m => !isTerminalB m) = true := by
  rw [process_query_eq]
  cases setup with
  | some e =>
    exact ⟨OutboundMessage.error ⟨qid, cid, e⟩, rfl, rfl,
      eventMessages_nonterminal qid cid run.events⟩
  | none =>
    cases run.failure with
    | some e =>
      exact ⟨OutboundMessage.error ⟨qid, cid, e⟩, rfl, rfl,
        eventMessages_nonterminal qid cid run.events⟩
    | none =>
      refine ⟨OutboundMessage.done
        ⟨qid, cid,
         match lastReported run.events with
         | some tk => tk
         | none => (get_or_create_session mgr now cid ws rid).1.session_id.getD ""⟩,
        rfl, rfl, eventMessages_nonterminal qid cid run.events⟩

/-- C3: when process_query terminates with done, its session_id is the last
resumption token the engine reported, overriding whatever the session held
before; with no reported token it is the token the session entered the call
with (the stored one for an existing session, the supplied resume_id for a
fresh one), or the empty string when there was none. -/
theorem c3_done_session_id_precedence (mgr : SessionManager) (now : Rat)
    (qid cid ws pr : String) (rid : Option String) (run : EngineRun)
    (hfail : run.failure = none) :
    (process_query mgr now qid cid ws pr rid none run).1.getLast? =
      some (OutboundMessage.done ⟨qid, cid,
        match lastReported run.events with
        | some tk => tk
        | none => (priorResumption mgr cid rid).getD ""⟩) := by
  rw [process_query_eq]
  simp only [hfail]
  rw [List.getLast?_concat]
  have hr : (get_or_create_session mgr now cid ws rid).1.session_id =
      priorResumption mgr cid rid := by
    unfold get_or_create_session priorResumption
    cases hm : alookup mgr.sessions cid <;> simp [hm]
  rw [hr]

/-- C3 witness: with two reported tokens and a clean finish the done message
carries the second token even though the session held none. -/
theorem c3_done_session_id_precedence_witness :
    (process_query ⟨[], 900⟩ 0 "q" "c" "w" "p" none none
        ⟨[SdkMessage.result "tok1", SdkMessage.result "tok2"], none⟩).1.getLast? =
      some (OutboundMessage.done ⟨"q", "c", "tok2"⟩) := by
  have h := c3_done_session_id_precedence ⟨[], 900⟩ 0 "q" "c" "w" "p" none
    ⟨[SdkMessage.result "tok1", SdkMessage.result "tok2"], none⟩ rfl
  simpa [lastReported] using h

/-- C4 counterexample: a session holding the token old, an engine run that
reports the token tok and then raises.  The terminal message is an error, yet
the stored resumption token has been mutated from old to tok, so an
invocation with an error terminal does not leave resumption_id unchanged. -/
theorem c4_resumption_mutated_on_error :
    (process_query ⟨[("c", ⟨"c", "w", 0, some "old"⟩)], 900⟩ 0 "q" "c" "w" "hi"
        none none ⟨[SdkMessage.result "tok"], some "boom"⟩).1 =
      [OutboundMessage.error ⟨"q", "c", "boom"⟩] ∧
    (alookup (⟨[("c", ⟨"c", "w", 0, some "old"⟩)], 900⟩ : SessionManager).sessions "c").map
      ChannelSession.session_id = some (some "old") ∧
    (alookup (process_query ⟨[("c", ⟨"c", "w", 0, some "old"⟩)], 900⟩ 0 "q" "c" "w" "hi"
        none none ⟨[SdkMessage.result "tok"], some "boom"⟩).2.sessions "c").map
      ChannelSession.session_id = some (some "tok") ∧
    (some (some "tok") : Option (Option String)) ≠ some (some "old") :=
  ⟨rfl, rfl, rfl, by decide⟩

/-- C4 (amended): the orchestrator mutates the stored resumption token at the
moment the engine reports one, not on successful completion: for an existing
session, an invocation whose run reports no token leaves the stored token
unchanged whether it ends in done or error, and an invocation whose run
reports tokens leaves the last one stored even when a later failure makes the
terminal an error. -/
theorem c4_resumption_update_amended (mgr : SessionManager) (now : Rat)
    (qid cid ws pr : String) (rid : Option String) (setup : Option String) (run : EngineRun)
    (s : ChannelSession) (hs : alookup mgr.sessions cid = some s) :
    (lastReported run.events = none →
       (alookup (process_query mgr now qid cid ws pr rid setup run).2.sessions cid).map
         ChannelSession.session_id = some s.session_id) ∧
    (∀ tk, lastReported run.events = some tk → setup = none →
       (alookup (process_query mgr now qid cid ws pr rid setup run).2.sessions cid).map
         ChannelSession.session_id = some (some tk)) := by
  have hg : get_or_create_session mgr now cid ws rid =
      ({ s with last_activity := now },
       { mgr with sessions := aupdate mgr.sessions cid { s with last_activity := now } }) := by
    unfold get_or_create_session; rw [hs]
  have hpresent : alookup (aupdate mgr.sessions cid { s with last_activity := now }) cid =
      some { s with last_activity := now } :=
    alookup_aupdate_self _ (by simp [hs])
  have h2 : alookup (aupdate (aupdate mgr.sessions cid { s with last_activity := now }) cid
        { s with last_activity := now }) cid =
      some { s with last_activity := now } :=
    alookup_aupdate_self _ (by rw [hpresent]; rfl)
  constructor
  · intro hl
    cases setup with
    | some e =>
      simp only [process_query_eq, hg]
      rw [hpresent]
      rfl
    | none =>
      cases hf : run.failure with
      | some e =>
        simp only [process_query_eq, hg, hl, hf]
        rw [h2]
        rfl
      | none =>
        simp only [process_query_eq, hg, hl, hf]
        rw [h2]
        rfl
  · intro tk hl hsetup
    subst hsetup
    have h3 : alookup (aupdate (aupdate mgr.sessions cid { s with last_activity := now }) cid
          { s with last_activity := now, session_id := some tk }) cid =
        some { s with last_activity := now, session_id := some tk } :=
      alookup_aupdate_self _ (by rw [hpresent]; rfl)
    cases hf : run.failure with
    | some e =>
      simp only [process_query_eq, hg, hl, hf]
      rw [h3]
      rfl
    | none =>
      simp only [process_query_eq, hg, hl, hf]
      rw [h3]
      rfl

/-- C4 witness: an invocation that fails before any token is reported leaves
the stored resumption token old in place. -/
theorem c4_resumption_update_amended_witness :
    (alookup (process_query ⟨[("c", ⟨"c", "w", 0, some "old"⟩)], 900⟩ 0 "q" "c" "w" "hi"
        none none ⟨[], some "boom"⟩).2.sessions "c").map
      ChannelSession.session_id = some (some "old") :=
  (c4_resumption_update_amended ⟨[("c", ⟨"c", "w", 0, some "old"⟩)], 900⟩ 0 "q" "c" "w" "hi"
    none none ⟨[], some "boom"⟩ ⟨"c", "w", 0, some "old"⟩ rfl).1 rfl

/-- C10: a payload carrying a recognized tag, well-typed values for every
required field of that variant, and otherwise only unrecognized extra
fields, parses successfully, and parses to exactly what the payload with the
extra fields removed parses to: the extras are silently dropped. -/
theorem c10_extra_fields_dropped (fields : List (String × JsonVal)) :
    (queryShapedB fields = true →
       exceptOk (parse_inbound fields) = true ∧
       parse_inbound fields = parse_inbound (keepQueryKeys fields)) ∧
    (closeShapedB fields = true →
       exceptOk (parse_inbound fields) = true ∧
       parse_inbound fields = parse_inbound (keepCloseKeys fields)) := by
  constructor
  · intro h
    simp only [queryShapedB, Bool.and_eq_true] at h
    obtain ⟨⟨⟨⟨⟨h1, h2⟩, h3⟩, h4⟩, h5⟩, h6⟩ := h
    have ht : alookup fields "type" = some (JsonVal.str "query") := by
      cases hty : alookup fields "type" with
      | none => rw [hty] at h1; simp at h1
      | some j =>
        cases j with
        | str s =>
          rw [hty] at h1
          have hs : s = "query" := by simpa using h1
          rw [hs]
        | null => rw [hty] at h1; simp at h1
        | bool b => rw [hty] at h1; simp at h1
        | num n => rw [hty] at h1; simp at h1
        | arr a => rw [hty] at h1; simp at h1
        | obj o => rw [hty] at h1; simp at h1
    obtain ⟨qv, hq⟩ := isStrJ_iff.1 h2
    obtain ⟨cv, hc⟩ := isStrJ_iff.1 h3
    obtain ⟨wv, hw⟩ := isStrJ_iff.1 h4
    obtain ⟨pv, hp⟩ := isStrJ_iff.1 h5
    have hsid : alookup fields "session_id" = none := by
      cases hx : alookup fields "session_id" with
      | none => rfl
      | some v =>
        have hmem := alookup_mem hx
        have hkv := List.all_eq_true.1 h6 _ hmem
        simp [isQueryReqKeyB, isQueryKeyB] at hkv
    have t1 : alookup (keepQueryKeys fields) "type" = alookup fields "type" :=
      alookup_filter _ fields "type" (fun v => rfl)
    have t2 : alookup (keepQueryKeys fields) "query_id" = alookup fields "query_id" :=
      alookup_filter _ fields "query_id" (fun v => rfl)
    have t3 : alookup (keepQueryKeys fields) "channel_id" = alookup fields "channel_id" :=
      alookup_filter _ fields "channel_id" (fun v => rfl)
    have t4 : alookup (keepQueryKeys fields) "workspace" = alookup fields "workspace" :=
      alookup_filter _ fields "workspace" (fun v => rfl)
    have t5 : alookup (keepQueryKeys fields) "prompt" = alookup fields "prompt" :=
      alookup_filter _ fields "prompt" (fun v => rfl)
    have t6 : alookup (keepQueryKeys fields) "session_id" = alookup fields "session_id" :=
      alookup_filter _ fields "session_id" (fun v => rfl)
    have e1 : parse_inbound fields =
        Except.ok (InboundMessage.query ⟨qv, cv, wv, pv, none⟩) := by
      unfold parse_inbound QueryMessage.model_validate
      rw [ht, hq, hc, hw, hp, hsid]
      rfl
    have e2 : parse_inbound (keepQueryKeys fields) =
        Except.ok (InboundMessage.query ⟨qv, cv, wv, pv, none⟩) := by
      unfold parse_inbound QueryMessage.model_validate
      rw [t1, t2, t3, t4, t5, t6, ht, hq, hc, hw, hp, hsid]
      rfl
    exact ⟨by rw [e1]; rfl, by rw [e1, e2]⟩
  · intro h
    simp only [closeShapedB, Bool.and_eq_true] at h
    obtain ⟨h1, h2⟩ := h
    have ht : alookup fields "type" = some (JsonVal.str "close_session") := by
      cases hty : alookup fields "type" with
      | none => rw [hty] at h1; simp at h1
      | some j =>
        cases j with
        | str s =>
          rw [hty] at h1
          have hs : s = "close_session" := by simpa using h1
          rw [hs]
        | null => rw [hty] at h1; simp at h1
        | bool b => rw [hty] at h1; simp at h1
        | num n => rw [hty] at h1; simp at h1
        | arr a => rw [hty] at h1; simp at h1
        | obj o => rw [hty] at h1; simp at h1
    obtain ⟨cv, hc⟩ := isStrJ_iff.1 h2
    have t1 : alookup (keepCloseKeys fields) "type" = alookup fields "type" :=
      alookup_filter _ fields "type" (fun v => rfl)
    have t2 : alookup (keepCloseKeys fields) "channel_id" = alookup fields "channel_id" :=
      alookup_filter _ fields "channel_id" (fun v => rfl)
    have e1 : parse_inbound fields =
        Except.ok (InboundMessage.close_session ⟨cv⟩) := by
      unfold parse_inbound CloseSessionMessage.model_validate
      rw [ht, hc]
      rfl
    have e2 : parse_inbound (keepCloseKeys fields) =
        Except.ok (InboundMessage.close_session ⟨cv⟩) := by
      unfold parse_inbound CloseSessionMessage.model_validate
      rw [t1, t2, ht, hc]
      rfl
    exact ⟨by rw [e1]; rfl, by rw [e1, e2]⟩

/-- C10 witness: a query payload with an unrecognized extra key parses, and
parses to the same message as the payload with the extra key removed. -/
theorem c10_extra_fields_dropped_witness :
    exceptOk (parse_inbound
      [("type", JsonVal.str "query"), ("query_id", JsonVal.str "q"),
       ("channel_id", JsonVal.str "c"), ("workspace", JsonVal.str "w"),
       ("prompt", JsonVal.str "p"), ("extra_key", JsonVal.num 7)]) = true ∧
    parse_inbound
      [("type", JsonVal.str "query"), ("query_id", JsonVal.str "q"),
       ("channel_id", JsonVal.str "c"), ("workspace", JsonVal.str "w"),
       ("prompt", JsonVal.str "p"), ("extra_key", JsonVal.num 7)] =
      parse_inbound (keepQueryKeys
        [("type", JsonVal.str "query"), ("query_id", JsonVal.str "q"),
         ("channel_id", JsonVal.str "c"), ("workspace", JsonVal.str "w"),
         ("prompt", JsonVal.str "p"), ("extra_key", JsonVal.num 7)]) :=
  (c10_extra_fields_dropped
    [("type", JsonVal.str "query"), ("query_id", JsonVal.str "q"),
     ("channel_id", JsonVal.str "c"), ("workspace", JsonVal.str "w"),
     ("prompt", JsonVal.str "p"), ("extra_key", JsonVal.num 7)]).1 rfl
